import Mathlib

/-!
Verification of the home-library application core: the entity store
(Book / UserBook rows), the metadata fetcher in its two deployment
variants (the relational `tasks.fetch_book_metadata` and the serverless
`tasks_lambda.process_metadata_fetch`), the sync-status lifecycle, the
duplicate-link and create-or-fetch store operations, ISBN barcode
normalization, and the partial-field update semantics of the DynamoDB
models.

Modelling conventions:
- Machine rows are records of field values.  Nullable columns and
  possibly-absent DynamoDB attributes are `Option String` / `Option Int`.
- DynamoDB `Decimal(str(i))` of an integer is value-preserving, so stored
  ratings are modelled as `Option Int`.
- Store tables are lists of rows; uuid surrogate keys are abstracted as
  `Nat` identifiers.
- The external catalog lookup (`requests.get` + `response.json()`) is
  abstracted as a `LookupOutcome`: a parsed 2xx body carrying the
  optional `items` array, or one of the exception classes the fetchers
  catch (`RequestException`, `json.JSONDecodeError`, any other
  exception).  The first element's `volumeInfo` object is `VolumeInfo`;
  `thumbnail` stands for the `imageLinks.thumbnail` path (absence at
  either level is `none`).
- Store lookups performed by the fetchers (`db.session.get`,
  `DynamoDBUserBook.get_by_id`, `DynamoDBBook.get_by_id`) are abstracted
  as the `Option`-valued results those lookups return.
-/

/-- Sentinel title given to a Book created by the barcode-scan path
before metadata has been fetched (`app.py`). -/
def placeholderTitle : String := "Fetching Title..."

/-- Sentinel author given to a Book created by the barcode-scan path
before metadata has been fetched (`app.py`). -/
def placeholderAuthor : String := "Fetching Author..."

/-- Fixed fallback cover image URL used by both fetchers when the
payload has no `imageLinks.thumbnail` (tasks.py / tasks_lambda.py). -/
def defaultCoverUrl : String := "https://www.press.uillinois.edu/books/images/no_cover_lg.jpg"

/-- Default description written when the payload has none. -/
def noDescription : String := "No description available."

/-- Python `x or default` on an optional string: `None` and the empty
string are falsy, any other string is returned as-is. -/
def pyOrString (x : Option String) (dflt : String) : String :=
  match x with
  | some s => if s = "" then dflt else s
  | none => dflt

/-- A Book row: `models.py` columns / the DynamoDB book item fields.
`title`/`author` are declared NOT NULL in `models.py` but the DynamoDB
item may hold NULL, so both are modelled as optional values. -/
structure Book where
  isbn : String
  title : Option String
  author : Option String
  genre : Option String
  cover_image_url : Option String
  description : Option String
deriving Repr, DecidableEq

/-- A UserBook row: the per-user link carrying reading status, optional
rating and the sync-status string. -/
structure UserBook where
  user_id : Nat
  book_id : Nat
  status : Option String
  rating : Option Int
  sync_status : String
deriving Repr, DecidableEq

/-- The `**kwargs` accepted by `DynamoDBBook.update`: one optional value
per updatable book field; `none` models an absent / `None` argument. -/
structure BookUpdate where
  title : Option String := none
  author : Option String := none
  genre : Option String := none
  cover_image_url : Option String := none
  description : Option String := none
deriving Repr, DecidableEq

/-- The `**kwargs` accepted by `DynamoDBUserBook.update`. -/
structure UserBookUpdate where
  status : Option String := none
  rating : Option Int := none
  sync_status : Option String := none
deriving Repr, DecidableEq

namespace DynamoDBBook

/-- `DynamoDBBook.update`: the kwargs loop adds a SET clause only for
arguments whose value `is not None`, so a `none` argument leaves the
stored attribute untouched and a `some` argument overwrites it. -/
def update (u : BookUpdate) (b : Book) : Book :=
  { b with
    title := match u.title with | some v => some v | none => b.title
    author := match u.author with | some v => some v | none => b.author
    genre := match u.genre with | some v => some v | none => b.genre
    cover_image_url :=
      match u.cover_image_url with | some v => some v | none => b.cover_image_url
    description :=
      match u.description with | some v => some v | none => b.description }

end DynamoDBBook

namespace DynamoDBUserBook

/-- `DynamoDBUserBook.update`: same non-`None` kwargs loop as the book
update; an integer rating is converted with `Decimal(str(value))`, which
is value-preserving. -/
def update (u : UserBookUpdate) (ub : UserBook) : UserBook :=
  { ub with
    status := match u.status with | some v => some v | none => ub.status
    rating := match u.rating with | some v => some v | none => ub.rating
    sync_status :=
      match u.sync_status with | some v => v | none => ub.sync_status }

end DynamoDBUserBook

/-- The `volumeInfo` object of the first catalog match. -/
structure VolumeInfo where
  title : Option String := none
  authors : Option (List String) := none
  description : Option String := none
  thumbnail : Option String := none
  categories : Option (List String) := none
deriving Repr, DecidableEq

/-- Outcome of the single catalog lookup performed by a fetch attempt. -/
inductive LookupOutcome
  /-- 2xx response with a parsed JSON body; the argument is the `items`
  array when the key is present (`if data and 'items' in data`). -/
  | ok (items : Option (List VolumeInfo))
  /-- network error, timeout or non-2xx status (`RequestException`). -/
  | requestError
  /-- malformed JSON body (`json.JSONDecodeError`). -/
  | jsonError
  /-- any other exception raised during the attempt. -/
  | otherError
deriving Repr, DecidableEq

/-- A lookup outcome that ends the attempt in failure: no match (absent
`items` key), an empty `items` array (IndexError on `items[0]`), or any
of the caught exception classes. -/
def LookupOutcome.failing : LookupOutcome → Bool
  | .ok none => true
  | .ok (some []) => true
  | .ok (some (_ :: _)) => false
  | .requestError => true
  | .jsonError => true
  | .otherError => true

namespace Tasks

/-- `tasks.fetch_book_metadata` (relational variant), abstracted over
the two store lookups and the lookup outcome.  A `none` result models
the early `return` on a vanished row: nothing is written.  A `some`
result pairs the Book row as committed with the UserBook `sync_status`
as committed.  When `categories` is present but empty, `categories[0]`
raises IndexError after the other assignments were already applied to
the ORM object, and the generic handler's commit persists them together
with `sync_status = FAILED`. -/
def fetch_book_metadata (ub : Option Unit) (bk : Option Book)
    (o : LookupOutcome) : Option (Book × String) :=
  match ub with
  | none => none
  | some _ =>
    match bk with
    | none => none
    | some book =>
      match o with
      | LookupOutcome.ok items =>
        match items with
        | none => some (book, "FAILED")
        | some [] => some (book, "FAILED")
        | some (vi :: _) =>
          let b1 : Book :=
            { book with
              title := vi.title
              author := some (String.intercalate ", " (vi.authors.getD ["Unknown"]))
              description := some (vi.description.getD noDescription)
              cover_image_url := some (pyOrString vi.thumbnail defaultCoverUrl) }
          match vi.categories.getD ["Uncategorized"] with
          | [] => some (b1, "FAILED")
          | g :: _ => some ({ b1 with genre := some g }, "SYNCED")
      | LookupOutcome.requestError => some (book, "FAILED")
      | LookupOutcome.jsonError => some (book, "FAILED")
      | LookupOutcome.otherError => some (book, "FAILED")

end Tasks

namespace TasksLambda

/-- The `updates` dict built on every failure branch of
`process_metadata_fetch`: title/author are rewritten to "Unknown" only
when they still hold the scan-path placeholder sentinel. -/
def failureUpdates (b : Book) : BookUpdate :=
  { title := if b.title = some placeholderTitle then some "Unknown" else none
    author := if b.author = some placeholderAuthor then some "Unknown" else none }

/-- The kwargs passed to `DynamoDBBook.update` on the success branch of
`process_metadata_fetch`.  `none` models the TypeError raised by
`', '.join([None])` when the payload has no `authors` and the stored
author attribute is NULL; that exception is caught by the generic
handler. -/
def successUpdates (vi : VolumeInfo) (b : Book) : Option BookUpdate :=
  let author :=
    match vi.authors with
    | some as => some (String.intercalate ", " as)
    | none => b.author
  match author with
  | none => none
  | some astr =>
    some { title := match vi.title with | some t => some t | none => b.title
           author := some astr
           description := some (vi.description.getD noDescription)
           cover_image_url := some (pyOrString vi.thumbnail defaultCoverUrl)
           genre := some (match vi.categories with
                          | some (c :: _) => c
                          | _ => b.genre.getD "Unknown") }

/-- `tasks_lambda.process_metadata_fetch` for one well-formed queue
record, abstracted over the two store lookups and the lookup outcome.
A `none` result models the `continue` on a vanished row (nothing
written); a `some` result pairs the Book item after the
`DynamoDBBook.update` call with the written `sync_status`.  Every
failure branch (absent `items`, IndexError on an empty array, and both
exception handlers) applies `failureUpdates` before marking FAILED. -/
def process_metadata_fetch (ub : Option Unit) (bk : Option Book)
    (o : LookupOutcome) : Option (Book × String) :=
  match ub with
  | none => none
  | some _ =>
    match bk with
    | none => none
    | some book =>
      match o with
      | LookupOutcome.ok (some (vi :: _)) =>
        match successUpdates vi book with
        | some u => some (DynamoDBBook.update u book, "SYNCED")
        | none => some (DynamoDBBook.update (failureUpdates book) book, "FAILED")
      | _ => some (DynamoDBBook.update (failureUpdates book) book, "FAILED")

end TasksLambda

/-- A Book still carrying both scan-path placeholder sentinels. -/
def phBookC1 : Book :=
  { isbn := "9780671027032", title := some placeholderTitle
    author := some placeholderAuthor, genre := some "Horror"
    cover_image_url := none, description := none }

/-- C1 (amended): on a failing fetch attempt (no match, empty items
array, non-2xx response, malformed payload, timeout, or other request
exception) the serverless fetcher replaces a still-placeholder title or
author with "Unknown", leaves every other field untouched, and marks
the UserBook FAILED; the relational fetcher marks the UserBook FAILED
but leaves every Book field - placeholders included - untouched. -/
theorem fetch_failure_outcomes (book : Book) (o : LookupOutcome)
    (ho : o.failing = true) :
    Tasks.fetch_book_metadata (some ()) (some book) o = some (book, "FAILED") ∧
    TasksLambda.process_metadata_fetch (some ()) (some book) o =
      some ({ book with
              title := if book.title = some placeholderTitle then some "Unknown"
                       else book.title
              author := if book.author = some placeholderAuthor then some "Unknown"
                        else book.author }, "FAILED") := by
  have h2 : DynamoDBBook.update (TasksLambda.failureUpdates book) book =
      { book with
        title := if book.title = some placeholderTitle then some "Unknown"
                 else book.title
        author := if book.author = some placeholderAuthor then some "Unknown"
                  else book.author } := by
    simp only [DynamoDBBook.update, TasksLambda.failureUpdates]
    split_ifs <;> rfl
  constructor
  · cases o with
    | ok items =>
      cases items with
      | none => rfl
      | some l =>
        cases l with
        | nil => rfl
        | cons v t => simp [LookupOutcome.failing] at ho
    | requestError => rfl
    | jsonError => rfl
    | otherError => rfl
  · cases o with
    | ok items =>
      cases items with
      | none => exact congrArg (fun b => some (b, "FAILED")) h2
      | some l =>
        cases l with
        | nil => exact congrArg (fun b => some (b, "FAILED")) h2
        | cons v t => simp [LookupOutcome.failing] at ho
    | requestError => exact congrArg (fun b => some (b, "FAILED")) h2
    | jsonError => exact congrArg (fun b => some (b, "FAILED")) h2
    | otherError => exact congrArg (fun b => some (b, "FAILED")) h2

/-- C1 witness: the amended failure property evaluated on a book that
still carries both placeholder sentinels, with a no-match lookup. -/
theorem fetch_failure_outcomes_witness :
    Tasks.fetch_book_metadata (some ()) (some phBookC1) (LookupOutcome.ok none) =
      some (phBookC1, "FAILED") ∧
    TasksLambda.process_metadata_fetch (some ()) (some phBookC1) (LookupOutcome.ok none) =
      some ({ phBookC1 with
              title := if phBookC1.title = some placeholderTitle then some "Unknown"
                       else phBookC1.title
              author := if phBookC1.author = some placeholderAuthor then some "Unknown"
                        else phBookC1.author }, "FAILED") :=
  fetch_failure_outcomes phBookC1 (LookupOutcome.ok none) rfl

/-- C1 counterexample: after a no-match fetch for a book whose title
still holds the placeholder sentinel, the relational fetcher returns
the book unchanged - the title is still "Fetching Title...", not the
"Unknown" the claim requires. -/
theorem relational_fetcher_keeps_placeholder :
    Tasks.fetch_book_metadata (some ()) (some phBookC1) (LookupOutcome.ok none) =
      some (phBookC1, "FAILED") ∧
    phBookC1.title = some placeholderTitle ∧
    some placeholderTitle ≠ (some "Unknown" : Option String) :=
  ⟨rfl, rfl, by decide⟩

/-- Spec-side description of the Book row after a successful fetch: the
extracted title `t`, the author list `as` joined into one display
string, the description and cover-image defaults of section 4.2, and
genre `g`. -/
def specSyncedBook (book : Book) (vi : VolumeInfo) (t : String)
    (as : List String) (g : String) : Book :=
  { book with
    title := some t
    author := some (String.intercalate ", " as)
    description := some (vi.description.getD noDescription)
    cover_image_url := some (pyOrString vi.thumbnail defaultCoverUrl)
    genre := some g }

/-- C2 (amended): on a lookup that returns at least one match carrying
a title and an authors list, both fetchers write the extracted title,
the joined author string, the description (default "No description
available.") and the cover image (default placeholder URL), and mark
the UserBook SYNCED.  When the match lists at least one category, both
variants write the first category as genre; when `categories` is
absent, the relational variant writes "Uncategorized" but the
serverless variant keeps the stored genre (or "Unknown" when the
stored genre is NULL). -/
theorem fetch_success_outcomes (book : Book) (vi : VolumeInfo)
    (rest : List VolumeInfo) (t : String) (as : List String)
    (ht : vi.title = some t) (ha : vi.authors = some as) :
    (∀ c cs, vi.categories = some (c :: cs) →
      Tasks.fetch_book_metadata (some ()) (some book)
          (LookupOutcome.ok (some (vi :: rest))) =
        some (specSyncedBook book vi t as c, "SYNCED") ∧
      TasksLambda.process_metadata_fetch (some ()) (some book)
          (LookupOutcome.ok (some (vi :: rest))) =
        some (specSyncedBook book vi t as c, "SYNCED")) ∧
    (vi.categories = none →
      Tasks.fetch_book_metadata (some ()) (some book)
          (LookupOutcome.ok (some (vi :: rest))) =
        some (specSyncedBook book vi t as "Uncategorized", "SYNCED") ∧
      TasksLambda.process_metadata_fetch (some ()) (some book)
          (LookupOutcome.ok (some (vi :: rest))) =
        some (specSyncedBook book vi t as (book.genre.getD "Unknown"), "SYNCED")) := by
  constructor
  · intro c cs hc
    constructor
    · simp [Tasks.fetch_book_metadata, specSyncedBook, ht, ha, hc]
    · simp [TasksLambda.process_metadata_fetch, TasksLambda.successUpdates,
        DynamoDBBook.update, specSyncedBook, ht, ha, hc]
  · intro hc
    constructor
    · simp [Tasks.fetch_book_metadata, specSyncedBook, ht, ha, hc]
    · simp [TasksLambda.process_metadata_fetch, TasksLambda.successUpdates,
        DynamoDBBook.update, specSyncedBook, ht, ha, hc]

/-- A fully-populated catalog match used to exercise the success path. -/
def viC2 : VolumeInfo :=
  { title := some "Dune", authors := some ["Frank Herbert"]
    categories := some ["Sci-Fi"] }

/-- A catalog match with no categories key. -/
def viC2NoCats : VolumeInfo :=
  { title := some "Dune", authors := some ["Frank Herbert"] }

/-- A Book whose stored genre is a real value, not a placeholder. -/
def bC2 : Book :=
  { isbn := "9780441013593", title := some "Old Title"
    author := some "Old Author", genre := some "Horror"
    cover_image_url := none, description := none }

/-- C2 witness: the success property evaluated on a concrete book and a
match listing a title, an author and one category. -/
theorem fetch_success_outcomes_witness :
    Tasks.fetch_book_metadata (some ()) (some bC2)
        (LookupOutcome.ok (some [viC2])) =
      some (specSyncedBook bC2 viC2 "Dune" ["Frank Herbert"] "Sci-Fi", "SYNCED") ∧
    TasksLambda.process_metadata_fetch (some ()) (some bC2)
        (LookupOutcome.ok (some [viC2])) =
      some (specSyncedBook bC2 viC2 "Dune" ["Frank Herbert"] "Sci-Fi", "SYNCED") :=
  (fetch_success_outcomes bC2 viC2 [] "Dune" ["Frank Herbert"] rfl rfl).1
    "Sci-Fi" [] rfl

/-- C2 counterexample: on a match with no categories, the serverless
fetcher keeps the stored genre "Horror" instead of writing the
"Uncategorized" default the claim requires. -/
theorem serverless_genre_default_diverges :
    (TasksLambda.process_metadata_fetch (some ()) (some bC2)
        (LookupOutcome.ok (some [viC2NoCats]))).map (fun r => r.1.genre) =
      some (some "Horror") ∧
    ("Horror" : String) ≠ "Uncategorized" :=
  ⟨rfl, by decide⟩

/-- C3 (amended): the two deployment variants of the metadata fetcher
agree when a referenced row is missing (both end with no write) and on
success payloads carrying a title, an authors list and at least one
category; they diverge on failure outcomes (placeholder replacement)
and on missing-field defaults. -/
theorem fetch_variants_agree :
    (∀ (bk : Option Book) (o : LookupOutcome),
      Tasks.fetch_book_metadata none bk o =
        TasksLambda.process_metadata_fetch none bk o) ∧
    (∀ o : LookupOutcome,
      Tasks.fetch_book_metadata (some ()) none o =
        TasksLambda.process_metadata_fetch (some ()) none o) ∧
    (∀ (book : Book) (vi : VolumeInfo) (rest : List VolumeInfo)
        (t : String) (as : List String) (c : String) (cs : List String),
      vi.title = some t → vi.authors = some as →
      vi.categories = some (c :: cs) →
      Tasks.fetch_book_metadata (some ()) (some book)
          (LookupOutcome.ok (some (vi :: rest))) =
        TasksLambda.process_metadata_fetch (some ()) (some book)
          (LookupOutcome.ok (some (vi :: rest)))) := by
  refine ⟨fun bk o => rfl, fun o => rfl, ?_⟩
  intro book vi rest t as c cs ht ha hc
  simp [Tasks.fetch_book_metadata, TasksLambda.process_metadata_fetch,
    TasksLambda.successUpdates, DynamoDBBook.update, ht, ha, hc]

/-- C3 witness: variant agreement evaluated on missing rows and on a
concrete full success payload. -/
theorem fetch_variants_agree_witness :
    (Tasks.fetch_book_metadata none (some bC2) LookupOutcome.requestError =
      TasksLambda.process_metadata_fetch none (some bC2) LookupOutcome.requestError) ∧
    (Tasks.fetch_book_metadata (some ()) none LookupOutcome.jsonError =
      TasksLambda.process_metadata_fetch (some ()) none LookupOutcome.jsonError) ∧
    (Tasks.fetch_book_metadata (some ()) (some bC2)
        (LookupOutcome.ok (some [viC2])) =
      TasksLambda.process_metadata_fetch (some ()) (some bC2)
        (LookupOutcome.ok (some [viC2]))) :=
  ⟨fetch_variants_agree.1 (some bC2) LookupOutcome.requestError,
   fetch_variants_agree.2.1 LookupOutcome.jsonError,
   fetch_variants_agree.2.2 bC2 viC2 [] "Dune" ["Frank Herbert"] "Sci-Fi" []
     rfl rfl rfl⟩

/-- C3 counterexample: a no-match fetch over a book still holding the
placeholder sentinels gives different Book rows in the two variants
(the relational one keeps the placeholders, the serverless one writes
"Unknown"), so the variants are not equivalent. -/
theorem fetch_variants_differ :
    Tasks.fetch_book_metadata (some ()) (some phBookC1) (LookupOutcome.ok none) ≠
      TasksLambda.process_metadata_fetch (some ()) (some phBookC1)
        (LookupOutcome.ok none) := by
  decide

namespace App

/-- `UserBook.query.filter_by(user_id=..., book_id=...).first()`: the
duplicate-link lookup used by both `add_book` and `scan_isbn`. -/
def find_user_book (store : List UserBook) (uid bid : Nat) : Option UserBook :=
  store.find? (fun r => r.user_id == uid && r.book_id == bid)

/-- The duplicate-link guard of `add_book` (and, identically, of
`scan_isbn`): if the (user, book) pair already has a row, reject
(`False`, surfaced as the already-added flash / 409 response) and write
nothing; otherwise insert the new row. -/
def add_book_link (store : List UserBook) (ub : UserBook) :
    List UserBook × Bool :=
  match find_user_book store ub.user_id ub.book_id with
  | some _ => (store, false)
  | none => (store ++ [ub], true)

/-- Number of stored link rows for a (user, book) pair. -/
def count_links (store : List UserBook) (uid bid : Nat) : Nat :=
  (store.filter (fun r => r.user_id == uid && r.book_id == bid)).length

/-- `Book.query.filter_by(isbn=...).first()`. -/
def find_book_by_isbn (store : List Book) (isbn : String) : Option Book :=
  store.find? (fun bk => bk.isbn == isbn)

/-- The get-or-create step of `add_book`: reuse the Book row with this
ISBN when one exists, otherwise insert the caller-supplied row. -/
def get_or_create_book (store : List Book) (b : Book) : List Book × Book :=
  match find_book_by_isbn store b.isbn with
  | some bk => (store, bk)
  | none => (store ++ [b], b)

/-- Number of stored Book rows holding a given ISBN. -/
def count_isbn (store : List Book) (isbn : String) : Nat :=
  (store.filter (fun bk => bk.isbn == isbn)).length

end App

namespace DynamoDBBook

/-- `DynamoDBBook.get_by_isbn`: first item of the isbn-index query. -/
def get_by_isbn (store : List Book) (isbn : String) : Option Book :=
  store.find? (fun bk => bk.isbn == isbn)

/-- `DynamoDBBook.create`: return the existing item when one already
holds this ISBN, otherwise put the new item.  The uuid surrogate key
and creation timestamp are abstracted away. -/
def create (store : List Book) (b : Book) : List Book × Book :=
  match get_by_isbn store b.isbn with
  | some existing => (store, existing)
  | none => (store ++ [b], b)

end DynamoDBBook

namespace DynamoDBUserBook

/-- `DynamoDBUserBook.get`: first item of the user-book-index query. -/
def get (store : List UserBook) (uid bid : Nat) : Option UserBook :=
  store.find? (fun r => r.user_id == uid && r.book_id == bid)

/-- The item dictionary built by `DynamoDBUserBook.create`.  The stored
rating is `Decimal(str(rating)) if rating else None`: a `None` or zero
(falsy) rating is stored as NULL, any other integer as given. -/
def mkItem (uid bid : Nat) (status : String) (rating : Option Int)
    (sync_status : String) : UserBook :=
  { user_id := uid, book_id := bid, status := some status
    rating := match rating with
              | some r => if r = 0 then none else some r
              | none => none
    sync_status := sync_status }

/-- `DynamoDBUserBook.create`: reject (`none`) when the (user, book)
pair already has an item, otherwise put the new item. -/
def create (store : List UserBook) (uid bid : Nat) (status : String)
    (rating : Option Int) (sync_status : String) :
    List UserBook × Option UserBook :=
  match get store uid bid with
  | some _ => (store, none)
  | none =>
    (store ++ [mkItem uid bid status rating sync_status],
     some (mkItem uid bid status rating sync_status))

end DynamoDBUserBook

/-- A zero filtered-count over a list of link rows means the duplicate
lookup finds nothing. -/
theorem links_filter_nil_of_count_zero (store : List UserBook) (uid bid : Nat)
    (h : App.count_links store uid bid = 0) :
    store.filter (fun r => r.user_id == uid && r.book_id == bid) = [] := by
  simpa [App.count_links] using h

/-- C5: linking the same (user, book) pair twice is rejected on the
second attempt in both variants - the relational route answers with the
already-added rejection and the DynamoDB create returns `none` - no
second row is inserted, and the store holds exactly one link for the
pair afterward. -/
theorem duplicate_user_book_rejected
    (store : List UserBook) (ub1 ub2 : UserBook)
    (hu : ub2.user_id = ub1.user_id) (hb : ub2.book_id = ub1.book_id)
    (h0 : App.count_links store ub1.user_id ub1.book_id = 0)
    (d0 : List UserBook) (uid bid : Nat) (st1 st2 sy1 sy2 : String)
    (r1 r2 : Option Int)
    (hd0 : App.count_links d0 uid bid = 0) :
    App.add_book_link store ub1 = (store ++ [ub1], true) ∧
    App.add_book_link (store ++ [ub1]) ub2 = (store ++ [ub1], false) ∧
    App.count_links (store ++ [ub1]) ub1.user_id ub1.book_id = 1 ∧
    (DynamoDBUserBook.create d0 uid bid st1 r1 sy1).2.isSome = true ∧
    DynamoDBUserBook.create (DynamoDBUserBook.create d0 uid bid st1 r1 sy1).1
        uid bid st2 r2 sy2 =
      ((DynamoDBUserBook.create d0 uid bid st1 r1 sy1).1, none) ∧
    App.count_links (DynamoDBUserBook.create d0 uid bid st1 r1 sy1).1 uid bid
      = 1 := by
  have hfil := links_filter_nil_of_count_zero store ub1.user_id ub1.book_id h0
  have hfil2 := links_filter_nil_of_count_zero d0 uid bid hd0
  have hfind : App.find_user_book store ub1.user_id ub1.book_id = none := by
    rw [App.find_user_book, List.find?_eq_none]
    exact List.filter_eq_nil_iff.mp hfil
  have hget : DynamoDBUserBook.get d0 uid bid = none := by
    rw [DynamoDBUserBook.get, List.find?_eq_none]
    exact List.filter_eq_nil_iff.mp hfil2
  have hfind1 : App.find_user_book store ub2.user_id ub2.book_id = none := by
    rw [hu, hb]; exact hfind
  have happ : App.find_user_book (store ++ [ub1]) ub2.user_id ub2.book_id =
      some ub1 := by
    rw [App.find_user_book] at hfind1 ⊢
    rw [List.find?_append, hfind1, Option.none_or, List.find?_singleton,
      if_pos]
    simp [hu, hb]
  have hc1 : DynamoDBUserBook.create d0 uid bid st1 r1 sy1 =
      (d0 ++ [DynamoDBUserBook.mkItem uid bid st1 r1 sy1],
       some (DynamoDBUserBook.mkItem uid bid st1 r1 sy1)) := by
    simp only [DynamoDBUserBook.create, hget]
  have hget2 : DynamoDBUserBook.get
      (d0 ++ [DynamoDBUserBook.mkItem uid bid st1 r1 sy1]) uid bid =
      some (DynamoDBUserBook.mkItem uid bid st1 r1 sy1) := by
    rw [DynamoDBUserBook.get] at hget ⊢
    rw [List.find?_append, hget, Option.none_or, List.find?_singleton,
      if_pos]
    simp [DynamoDBUserBook.mkItem]
  refine ⟨?_, ?_, ?_, ?_, ?_, ?_⟩
  · rw [App.add_book_link, hfind]
  · rw [App.add_book_link, happ]
  · simp [App.count_links, List.filter_append, hfil]
  · rw [hc1]; rfl
  · rw [hc1]
    simp only [DynamoDBUserBook.create, hget2]
  · rw [hc1]
    simp [App.count_links, List.filter_append, hfil2, DynamoDBUserBook.mkItem]

/-- C5 witness: the double-link rejection starting from empty stores. -/
theorem duplicate_user_book_rejected_witness :
    App.add_book_link [] ⟨1, 2, some "to-read", none, "PENDING_SYNC"⟩ =
      ([⟨1, 2, some "to-read", none, "PENDING_SYNC"⟩], true) ∧
    App.add_book_link [⟨1, 2, some "to-read", none, "PENDING_SYNC"⟩]
        ⟨1, 2, some "reading", some 4, "PENDING_SYNC"⟩ =
      ([⟨1, 2, some "to-read", none, "PENDING_SYNC"⟩], false) ∧
    App.count_links [⟨1, 2, some "to-read", none, "PENDING_SYNC"⟩] 1 2 = 1 ∧
    (DynamoDBUserBook.create [] 1 2 "to-read" none "PENDING").2.isSome = true ∧
    DynamoDBUserBook.create (DynamoDBUserBook.create [] 1 2 "to-read" none "PENDING").1
        1 2 "read" (some 5) "PENDING" =
      ((DynamoDBUserBook.create [] 1 2 "to-read" none "PENDING").1, none) ∧
    App.count_links (DynamoDBUserBook.create [] 1 2 "to-read" none "PENDING").1 1 2
      = 1 :=
  duplicate_user_book_rejected []
    ⟨1, 2, some "to-read", none, "PENDING_SYNC"⟩
    ⟨1, 2, some "reading", some 4, "PENDING_SYNC"⟩
    rfl rfl rfl [] 1 2 "to-read" "read" "PENDING" "PENDING" none (some 5) rfl

/-- A zero filtered-count over a list of Book rows means the lookup by
ISBN finds nothing. -/
theorem books_filter_nil_of_count_zero (store : List Book) (isbn : String)
    (h : App.count_isbn store isbn = 0) :
    store.filter (fun bk => bk.isbn == isbn) = [] := by
  simpa [App.count_isbn] using h

/-- C6: performing the create-or-fetch Book operation twice with the
same ISBN - in either variant - leaves exactly one stored row for that
ISBN; the second call returns the row written by the first and writes
nothing new. -/
theorem book_create_or_fetch_idempotent
    (store : List Book) (b1 b2 : Book) (hisbn : b2.isbn = b1.isbn)
    (h0 : App.count_isbn store b1.isbn = 0)
    (d0 : List Book) (c1 c2 : Book) (hisbn2 : c2.isbn = c1.isbn)
    (hd0 : App.count_isbn d0 c1.isbn = 0) :
    App.get_or_create_book store b1 = (store ++ [b1], b1) ∧
    App.get_or_create_book (store ++ [b1]) b2 = (store ++ [b1], b1) ∧
    App.count_isbn (store ++ [b1]) b1.isbn = 1 ∧
    DynamoDBBook.create d0 c1 = (d0 ++ [c1], c1) ∧
    DynamoDBBook.create (d0 ++ [c1]) c2 = (d0 ++ [c1], c1) ∧
    App.count_isbn (d0 ++ [c1]) c1.isbn = 1 := by
  have hfil := books_filter_nil_of_count_zero store b1.isbn h0
  have hfil2 := books_filter_nil_of_count_zero d0 c1.isbn hd0
  have hfind : App.find_book_by_isbn store b1.isbn = none := by
    rw [App.find_book_by_isbn, List.find?_eq_none]
    exact List.filter_eq_nil_iff.mp hfil
  have hget : DynamoDBBook.get_by_isbn d0 c1.isbn = none := by
    rw [DynamoDBBook.get_by_isbn, List.find?_eq_none]
    exact List.filter_eq_nil_iff.mp hfil2
  have hfind1 : App.find_book_by_isbn store b2.isbn = none := by
    rw [hisbn]; exact hfind
  have happ : App.find_book_by_isbn (store ++ [b1]) b2.isbn = some b1 := by
    rw [App.find_book_by_isbn] at hfind1 ⊢
    rw [List.find?_append, hfind1, Option.none_or, List.find?_singleton,
      if_pos]
    simp [hisbn]
  have hget1 : DynamoDBBook.get_by_isbn d0 c2.isbn = none := by
    rw [hisbn2]; exact hget
  have happ2 : DynamoDBBook.get_by_isbn (d0 ++ [c1]) c2.isbn = some c1 := by
    rw [DynamoDBBook.get_by_isbn] at hget1 ⊢
    rw [List.find?_append, hget1, Option.none_or, List.find?_singleton,
      if_pos]
    simp [hisbn2]
  refine ⟨?_, ?_, ?_, ?_, ?_, ?_⟩
  · rw [App.get_or_create_book, hfind]
  · rw [App.get_or_create_book, happ]
  · simp [App.count_isbn, List.filter_append, hfil]
  · simp only [DynamoDBBook.create, hget]
  · simp only [DynamoDBBook.create, happ2]
  · simp [App.count_isbn, List.filter_append, hfil2]

/-- C6 witness: double create-or-fetch for ISBN 9781234567890 from
empty stores, with a second caller supplying different fields. -/
theorem book_create_or_fetch_idempotent_witness :
    App.get_or_create_book []
        ⟨"9781234567890", some "T1", some "A1", none, none, none⟩ =
      ([⟨"9781234567890", some "T1", some "A1", none, none, none⟩],
       ⟨"9781234567890", some "T1", some "A1", none, none, none⟩) ∧
    App.get_or_create_book
        [⟨"9781234567890", some "T1", some "A1", none, none, none⟩]
        ⟨"9781234567890", some "T2", some "A2", none, none, none⟩ =
      ([⟨"9781234567890", some "T1", some "A1", none, none, none⟩],
       ⟨"9781234567890", some "T1", some "A1", none, none, none⟩) ∧
    App.count_isbn [⟨"9781234567890", some "T1", some "A1", none, none, none⟩]
        "9781234567890" = 1 ∧
    DynamoDBBook.create []
        ⟨"9781234567890", some "T1", some "A1", none, none, none⟩ =
      ([⟨"9781234567890", some "T1", some "A1", none, none, none⟩],
       ⟨"9781234567890", some "T1", some "A1", none, none, none⟩) ∧
    DynamoDBBook.create
        [⟨"9781234567890", some "T1", some "A1", none, none, none⟩]
        ⟨"9781234567890", some "T2", some "A2", none, none, none⟩ =
      ([⟨"9781234567890", some "T1", some "A1", none, none, none⟩],
       ⟨"9781234567890", some "T1", some "A1", none, none, none⟩) ∧
    App.count_isbn [⟨"9781234567890", some "T1", some "A1", none, none, none⟩]
        "9781234567890" = 1 :=
  book_create_or_fetch_idempotent []
    ⟨"9781234567890", some "T1", some "A1", none, none, none⟩
    ⟨"9781234567890", some "T2", some "A2", none, none, none⟩ rfl rfl
    []
    ⟨"9781234567890", some "T1", some "A1", none, none, none⟩
    ⟨"9781234567890", some "T2", some "A2", none, none, none⟩ rfl rfl

namespace App

/-- `isbn.replace('-', '')` in `scan_isbn`: replacing every hyphen with
the empty string removes exactly the hyphen characters. -/
def normalize_barcode (s : String) : String :=
  String.mk (s.data.filter (fun ch => ch != '-'))

/-- The acceptance test of `scan_isbn`, written exactly as in the
source: `(len == 10 and isdigit) or (len == 13 and isdigit)`.  Python
`str.isdigit` on a string of ASCII characters holds exactly when every
character is a decimal digit (the length guard rules out the empty
string). -/
def accepts_isbn (s : String) : Bool :=
  (s.length == 10 && s.data.all Char.isDigit) ||
    (s.length == 13 && s.data.all Char.isDigit)

/-- The candidate loop of `scan_isbn`: normalize each decoded barcode
in order and return the first accepted ISBN; `none` models the
"No valid ISBN barcode found." 404 response. -/
def scan_candidates (cands : List String) : Option String :=
  cands.findSome? (fun c =>
    if accepts_isbn (normalize_barcode c) then some (normalize_barcode c)
    else none)

end App

/-- Spec-side acceptance predicate, in the claim's words: the cleaned
string is all digits and exactly 10 or 13 characters long. -/
def specAcceptIsbn (s : String) : Prop :=
  (s.length = 10 ∨ s.length = 13) ∧ ∀ ch ∈ s.data, ch.isDigit = true

/-- C7: the scan path strips hyphens and accepts the result exactly
when the cleaned string is all digits of length 10 or 13; the two
worked examples normalize and are accepted as stated, and an 11-digit
or non-digit candidate falls through to the no-valid-barcode outcome. -/
theorem scan_isbn_normalization :
    (∀ c : String, App.accepts_isbn (App.normalize_barcode c) = true ↔
      specAcceptIsbn (App.normalize_barcode c)) ∧
    App.normalize_barcode "978-0-671-02703-2" = "9780671027032" ∧
    App.scan_candidates ["978-0-671-02703-2"] = some "9780671027032" ∧
    App.normalize_barcode "978-1234567890" = "9781234567890" ∧
    App.scan_candidates ["978-1234567890"] = some "9781234567890" ∧
    App.scan_candidates ["12345678901"] = none ∧
    App.scan_candidates ["12345abcde"] = none := by
  refine ⟨?_, by decide, by decide, by decide, by decide, by decide, by decide⟩
  intro c
  rw [App.accepts_isbn, specAcceptIsbn]
  simp only [Bool.or_eq_true, Bool.and_eq_true, beq_iff_eq, List.all_eq_true]
  tauto

/-- The edit form posted to `manual_update_book` / `edit_book`: title
and author are required fields, the rest are optional; `rating` is the
already-parsed `int(rating) if rating else None` (an empty form value
is falsy and becomes `None`). -/
structure BookEditForm where
  title : String
  author : String
  genre : Option String
  description : Option String
  cover_image_url : Option String
  status : Option String
  rating : Option Int
deriving Repr, DecidableEq

namespace App

/-- `manual_update_book` (and the POST branch of the relational
`edit_book`, whose body is identical): reject when the requester does
not own the UserBook; otherwise assign every form field onto the two
rows and force `sync_status = SYNCED`.  A `none` result models the
unauthorized redirect (nothing written). -/
def manual_update_book (requester : Nat) (ub : UserBook) (b : Book)
    (f : BookEditForm) : Option (Book × UserBook) :=
  if requester ≠ ub.user_id then none
  else
    some ({ b with title := some f.title, author := some f.author
                   genre := f.genre, description := f.description
                   cover_image_url := f.cover_image_url },
          { ub with status := f.status, rating := f.rating
                    sync_status := "SYNCED" })

end App

namespace AppLambda

/-- `edit_book` (serverless variant): reject when the UserBook is
missing or not owned by the requester; otherwise run the two partial
updates, the UserBook one always carrying `sync_status='SYNCED'`. -/
def edit_book (requester : Nat) (ub : Option UserBook) (b : Book)
    (f : BookEditForm) : Option (Book × UserBook) :=
  match ub with
  | none => none
  | some ubRow =>
    if requester ≠ ubRow.user_id then none
    else
      some (DynamoDBBook.update
              { title := some f.title, author := some f.author
                genre := f.genre, description := f.description
                cover_image_url := f.cover_image_url } b,
            DynamoDBUserBook.update
              { status := f.status, rating := f.rating
                sync_status := some "SYNCED" } ubRow)

end AppLambda

/-- C8: a manual edit of a UserBook by its owner sets the sync-status
to SYNCED unconditionally - whatever the prior value was - in both
deployment variants. -/
theorem manual_edit_forces_synced (requester : Nat) (ub : UserBook)
    (b : Book) (f : BookEditForm) (hown : requester = ub.user_id) :
    (App.manual_update_book requester ub b f).map
        (fun r => r.2.sync_status) = some "SYNCED" ∧
    (AppLambda.edit_book requester (some ub) b f).map
        (fun r => r.2.sync_status) = some "SYNCED" := by
  constructor
  · simp [App.manual_update_book, hown]
  · simp [AppLambda.edit_book, DynamoDBUserBook.update, hown]

/-- C8 witness: the owner's edit flips a FAILED link to SYNCED in both
variants. -/
theorem manual_edit_forces_synced_witness :
    (App.manual_update_book 7 ⟨7, 3, some "read", some 2, "FAILED"⟩
        ⟨"9780671027032", some "T", some "A", none, none, none⟩
        ⟨"T2", "A2", none, none, none, some "read", some 5⟩).map
      (fun r => r.2.sync_status) = some "SYNCED" ∧
    (AppLambda.edit_book 7 (some ⟨7, 3, some "read", some 2, "FAILED"⟩)
        ⟨"9780671027032", some "T", some "A", none, none, none⟩
        ⟨"T2", "A2", none, none, none, some "read", some 5⟩).map
      (fun r => r.2.sync_status) = some "SYNCED" :=
  manual_edit_forces_synced 7 ⟨7, 3, some "read", some 2, "FAILED"⟩
    ⟨"9780671027032", some "T", some "A", none, none, none⟩
    ⟨"T2", "A2", none, none, none, some "read", some 5⟩ rfl

/-- C9: the DynamoDB partial updates write only the supplied non-null
fields; every field whose argument is absent or `None` keeps its
previous stored value, and the key fields are never touched. -/
theorem partial_update_frame (b : Book) (u : BookUpdate) (ub : UserBook)
    (w : UserBookUpdate) :
    (u.title = none → (DynamoDBBook.update u b).title = b.title) ∧
    (∀ v, u.title = some v → (DynamoDBBook.update u b).title = some v) ∧
    (u.author = none → (DynamoDBBook.update u b).author = b.author) ∧
    (∀ v, u.author = some v → (DynamoDBBook.update u b).author = some v) ∧
    (u.genre = none → (DynamoDBBook.update u b).genre = b.genre) ∧
    (∀ v, u.genre = some v → (DynamoDBBook.update u b).genre = some v) ∧
    (u.cover_image_url = none →
      (DynamoDBBook.update u b).cover_image_url = b.cover_image_url) ∧
    (∀ v, u.cover_image_url = some v →
      (DynamoDBBook.update u b).cover_image_url = some v) ∧
    (u.description = none →
      (DynamoDBBook.update u b).description = b.description) ∧
    (∀ v, u.description = some v →
      (DynamoDBBook.update u b).description = some v) ∧
    (DynamoDBBook.update u b).isbn = b.isbn ∧
    (w.status = none → (DynamoDBUserBook.update w ub).status = ub.status) ∧
    (∀ v, w.status = some v →
      (DynamoDBUserBook.update w ub).status = some v) ∧
    (w.rating = none → (DynamoDBUserBook.update w ub).rating = ub.rating) ∧
    (∀ v, w.rating = some v →
      (DynamoDBUserBook.update w ub).rating = some v) ∧
    (w.sync_status = none →
      (DynamoDBUserBook.update w ub).sync_status = ub.sync_status) ∧
    (∀ v, w.sync_status = some v →
      (DynamoDBUserBook.update w ub).sync_status = v) ∧
    (DynamoDBUserBook.update w ub).user_id = ub.user_id ∧
    (DynamoDBUserBook.update w ub).book_id = ub.book_id := by
  refine ⟨fun h => by simp [DynamoDBBook.update, h],
    fun v h => by simp [DynamoDBBook.update, h],
    fun h => by simp [DynamoDBBook.update, h],
    fun v h => by simp [DynamoDBBook.update, h],
    fun h => by simp [DynamoDBBook.update, h],
    fun v h => by simp [DynamoDBBook.update, h],
    fun h => by simp [DynamoDBBook.update, h],
    fun v h => by simp [DynamoDBBook.update, h],
    fun h => by simp [DynamoDBBook.update, h],
    fun v h => by simp [DynamoDBBook.update, h],
    by simp [DynamoDBBook.update],
    fun h => by simp [DynamoDBUserBook.update, h],
    fun v h => by simp [DynamoDBUserBook.update, h],
    fun h => by simp [DynamoDBUserBook.update, h],
    fun v h => by simp [DynamoDBUserBook.update, h],
    fun h => by simp [DynamoDBUserBook.update, h],
    fun v h => by simp [DynamoDBUserBook.update, h],
    by simp [DynamoDBUserBook.update],
    by simp [DynamoDBUserBook.update]⟩

/-- C9 witness: a fetcher-style Book update that supplies title and
author leaves the human-edited description alone, and a UserBook update
that supplies only the sync status leaves status and rating alone. -/
theorem partial_update_frame_witness :
    (DynamoDBBook.update ⟨some "New T", some "New A", none, none, none⟩
        ⟨"9780671027032", some "T", some "A", some "Horror", none,
          some "my notes"⟩).description = some "my notes" ∧
    (DynamoDBBook.update ⟨some "New T", some "New A", none, none, none⟩
        ⟨"9780671027032", some "T", some "A", some "Horror", none,
          some "my notes"⟩).title = some "New T" ∧
    (DynamoDBUserBook.update ⟨none, none, some "SYNCED"⟩
        ⟨1, 2, some "reading", some 3, "PENDING"⟩).rating = some 3 ∧
    (DynamoDBUserBook.update ⟨none, none, some "SYNCED"⟩
        ⟨1, 2, some "reading", some 3, "PENDING"⟩).sync_status = "SYNCED" := by
  obtain ⟨h1, h2, h3, h4, h5, h6, h7, h8, h9, h10, h11, h12, h13, h14, h15,
      h16, h17, h18, h19⟩ :=
    partial_update_frame
      ⟨"9780671027032", some "T", some "A", some "Horror", none,
        some "my notes"⟩
      ⟨some "New T", some "New A", none, none, none⟩
      ⟨1, 2, some "reading", some 3, "PENDING"⟩
      ⟨none, none, some "SYNCED"⟩
  exact ⟨h9 rfl, h2 "New T" rfl, h14 rfl, h17 "SYNCED" rfl⟩

/-- C10 (amended): `DynamoDBUserBook.create` drops a falsy rating (zero
or `None`) and stores NULL, persisting any nonzero integer as given;
`DynamoDBUserBook.update`, whose guard only skips `None` arguments,
persists every supplied rating - zero included - as given. -/
theorem rating_zero_handling (store : List UserBook) (uid bid : Nat)
    (st sy : String) (r : Int)
    (h : DynamoDBUserBook.get store uid bid = none) :
    (DynamoDBUserBook.create store uid bid st (some 0) sy).2 =
      some (DynamoDBUserBook.mkItem uid bid st (some 0) sy) ∧
    (DynamoDBUserBook.mkItem uid bid st (some 0) sy).rating = none ∧
    (DynamoDBUserBook.mkItem uid bid st none sy).rating = none ∧
    (r ≠ 0 → (DynamoDBUserBook.mkItem uid bid st (some r) sy).rating = some r) ∧
    (∀ ub : UserBook,
      (DynamoDBUserBook.update ⟨none, some r, none⟩ ub).rating = some r) := by
  refine ⟨by simp only [DynamoDBUserBook.create, h], by
      simp [DynamoDBUserBook.mkItem], by simp [DynamoDBUserBook.mkItem],
    fun hr => by simp [DynamoDBUserBook.mkItem, hr],
    fun ub => by simp [DynamoDBUserBook.update]⟩

/-- C10 witness: the rating rules evaluated on an empty store and the
nonzero rating 4. -/
theorem rating_zero_handling_witness :
    (DynamoDBUserBook.create [] 1 2 "to-read" (some 0) "PENDING").2 =
      some (DynamoDBUserBook.mkItem 1 2 "to-read" (some 0) "PENDING") ∧
    (DynamoDBUserBook.mkItem 1 2 "to-read" (some 0) "PENDING").rating = none ∧
    (DynamoDBUserBook.mkItem 1 2 "to-read" (some 4) "PENDING").rating = some 4 ∧
    (DynamoDBUserBook.update ⟨none, some 4, none⟩
        ⟨1, 2, some "read", none, "SYNCED"⟩).rating = some 4 := by
  obtain ⟨g1, g2, g3, g4, g5⟩ :=
    rating_zero_handling [] 1 2 "to-read" "PENDING" 4 rfl
  exact ⟨g1, g2, g4 (by decide), g5 ⟨1, 2, some "read", none, "SYNCED"⟩⟩

/-- C10 counterexample: `DynamoDBUserBook.update` called with rating 0
does persist it - the stored rating becomes 0, not NULL - because the
update guard checks `is not None`, not truthiness. -/
theorem update_persists_zero_rating :
    (DynamoDBUserBook.update ⟨none, some 0, none⟩
        ⟨1, 2, some "read", none, "SYNCED"⟩).rating = some 0 ∧
    some (0 : Int) ≠ (none : Option Int) :=
  ⟨rfl, by decide⟩

/-- C4: a fetcher invocation whose UserBook identifier does not resolve,
or whose UserBook references a vanished Book, ends quietly with no
write in either deployment variant. -/
theorem fetchers_quiet_on_missing_rows (bk : Option Book) (o : LookupOutcome) :
    Tasks.fetch_book_metadata none bk o = none ∧
    TasksLambda.process_metadata_fetch none bk o = none ∧
    Tasks.fetch_book_metadata (some ()) none o = none ∧
    TasksLambda.process_metadata_fetch (some ()) none o = none :=
  ⟨rfl, rfl, rfl, rfl⟩
